import Mathlib

/-!
Verification of the filter-and-aggregate query engine of `src/spark_app.py`
(a PySpark script).  The script reads a Parquet table into a DataFrame,
optionally filters it (time window on `tpep_pickup_datetime`, inclusive
min/max bounds on a chosen attribute) and reports count / min / max / avg /
stddev of the attribute, either globally (`mode_filter`) or per group key
(`mode_group`).

Shallow-embedding conventions:
* A DataFrame is a column-name list plus a list of rows; a row is an
  association list from column name to an optional cell value (`none` models
  a SQL NULL cell; a column absent from the row also reads as NULL).
* Cell values are rationals (numeric columns), strings, or integer-coded
  timestamps.  Spark's Double arithmetic is idealised as exact `ℚ`
  arithmetic.
* Spark SQL three-valued logic: a comparison involving a NULL operand is
  NULL, and `DataFrame.filter` keeps only rows where the predicate is TRUE,
  so a NULL comparison drops the row.  Predicates below therefore return
  `false` on NULL (or non-numeric, i.e. uncastable) operands.
* `F.stddev` is Spark's `stddev_samp`, which returns NULL when fewer than two
  non-null values are aggregated.  To stay in exact arithmetic we record the
  *square* of the reported stddev (the sample variance, computed from running
  sum and sum of squares) in the field `stddevSq`; the reported stddev is
  `Real.sqrt` of it.  Since `Real.sqrt` is injective and order-preserving on
  nonnegatives and `Option.map` preserves `none`, nullity, equality and
  nonnegativity of the stddev are settled at the `stddevSq` level.
* Python argparse truthiness: `if args.start:` is false for both `None` and
  `""`, modelled by `truthy`.
-/

namespace SparkApp

/-- A cell value of the DataFrame: numeric, string, or timestamp
(timestamps are integer-coded so that chronological order is integer order). -/
inductive Val where
  | num (q : ℚ)
  | str (s : String)
  | ts (t : ℤ)
deriving DecidableEq, Repr

/-- A row: association list from column name to optional cell value
(`none` is a NULL cell). -/
abbrev Row := List (String × Option Val)

/-- Cell lookup; a column not present in the row reads as NULL. -/
def getCell (r : Row) (c : String) : Option Val :=
  match r.lookup c with
  | some v => v
  | none => none

/-- A Spark DataFrame: schema (column names) and rows in a stable order. -/
structure DataFrame where
  cols : List String
  rows : List Row
deriving DecidableEq, Repr

/-- The mode flag, `--mode {filter,group}` (argparse rules out anything else). -/
inductive Mode where
  | filter
  | group
deriving DecidableEq, Repr

/-- The parsed command-line arguments consumed by the analytics functions
(`parse_args` output).  `attr` models `args.attribute`; `end_` models
`args.end` (both renamings forced by Lean keywords). -/
structure Args where
  mode : Mode
  attr : String
  min_value : Option ℚ
  max_value : Option ℚ
  start : Option String
  end_ : Option String
  group_by : Option String
  output : Option String
deriving DecidableEq, Repr

/-- Python truthiness of an optional string: `None` and `""` are falsy. -/
def truthy : Option String → Bool
  | some s => !(s == "")
  | none => false

/-- Numeric value of a digit character. -/
def dval (c : Char) : ℤ :=
  (c.toNat : ℤ) - 48

/-- Modelled from Spark's string→timestamp cast (external library behaviour),
restricted to the expected format named in the script's `--help` text
(`'2016-01-01 00:00:00'`, i.e. `yyyy-MM-dd HH:mm:ss`): a string of exactly
that shape parses to its digits read as one integer (which is
order-isomorphic to chronological order for this fixed-width format); any
other string — e.g. `"not-a-date"` — casts to NULL, modelled as `none`. -/
def parseTs (s : String) : Option ℤ :=
  match s.toList with
  | [y1, y2, y3, y4, c1, m1, m2, c2, d1, d2, c3, h1, h2, c4, n1, n2, c5, s1, s2] =>
    if c1 = '-' ∧ c2 = '-' ∧ c3 = ' ' ∧ c4 = ':' ∧ c5 = ':' ∧
        y1.isDigit ∧ y2.isDigit ∧ y3.isDigit ∧ y4.isDigit ∧
        m1.isDigit ∧ m2.isDigit ∧ d1.isDigit ∧ d2.isDigit ∧
        h1.isDigit ∧ h2.isDigit ∧ n1.isDigit ∧ n2.isDigit ∧
        s1.isDigit ∧ s2.isDigit then
      some (((((((((((((dval y1 * 10 + dval y2) * 10 + dval y3) * 10 + dval y4) * 10 +
        dval m1) * 10 + dval m2) * 10 + dval d1) * 10 + dval d2) * 10 +
        dval h1) * 10 + dval h2) * 10 + dval n1) * 10 + dval n2) * 10 +
        dval s1) * 10 + dval s2)
    else none
  | _ => none

/-- Predicate `F.col c >= F.lit (s : String)` on a timestamp column: the string literal
is cast to a timestamp; if the cast fails (NULL literal) or the cell is NULL
(or not a timestamp), the comparison is NULL and the row is dropped. -/
def tsGeLit (cell : Option Val) (s : String) : Bool :=
  match parseTs s, cell with
  | some t, some (.ts u) => decide (t ≤ u)
  | _, _ => false

/-- Predicate `F.col c <= F.lit (s : String)` on a timestamp column (see `tsGeLit`). -/
def tsLeLit (cell : Option Val) (s : String) : Bool :=
  match parseTs s, cell with
  | some t, some (.ts u) => decide (u ≤ t)
  | _, _ => false

/-- Predicate `F.col a >= F.lit (b : float)`: TRUE only for a non-NULL numeric cell
`≥ b`; NULL (or uncastable) cells compare to NULL and are dropped. -/
def numGe (cell : Option Val) (b : ℚ) : Bool :=
  match cell with
  | some (.num q) => decide (b ≤ q)
  | _ => false

/-- Predicate `F.col a <= F.lit (b : float)` (see `numGe`). -/
def numLe (cell : Option Val) (b : ℚ) : Bool :=
  match cell with
  | some (.num q) => decide (q ≤ b)
  | _ => false

/-- The function `apply_filters(df, args)`: the optional time-window filter on
`tpep_pickup_datetime` (only when that column exists, and only for truthy
`start` / `end`), then the optional min/max bound filters on the chosen
attribute.  `DataFrame.filter` keeps the surviving rows in original order. -/
def apply_filters (df : DataFrame) (args : Args) : DataFrame :=
  let df1 :=
    if "tpep_pickup_datetime" ∈ df.cols then
      let dfa :=
        match args.start with
        | some s =>
          if s = "" then df
          else { df with rows := df.rows.filter (fun r => tsGeLit (getCell r "tpep_pickup_datetime") s) }
        | none => df
      match args.end_ with
      | some s =>
        if s = "" then dfa
        else { dfa with rows := dfa.rows.filter (fun r => tsLeLit (getCell r "tpep_pickup_datetime") s) }
      | none => dfa
    else df
  let df2 :=
    match args.min_value with
    | some b => { df1 with rows := df1.rows.filter (fun r => numGe (getCell r args.attr) b) }
    | none => df1
  match args.max_value with
  | some b => { df2 with rows := df2.rows.filter (fun r => numLe (getCell r args.attr) b) }
  | none => df2

/-- The numeric content of a cell, as used by `avg`/`stddev` (a NULL or
non-numeric cell contributes nothing). -/
def numCell (r : Row) (attr : String) : Option ℚ :=
  match getCell r attr with
  | some (.num q) => some q
  | _ => none

/-- The non-null numeric values of the attribute column, in row order. -/
def numVals (rows : List Row) (attr : String) : List ℚ :=
  rows.filterMap (fun r => numCell r attr)

/-- Aggregate `F.min` over the aggregated values: NULL iff no non-null value. -/
def minQ : List ℚ → Option ℚ
  | [] => none
  | x :: t => some (t.foldl min x)

/-- Aggregate `F.max` over the aggregated values: NULL iff no non-null value. -/
def maxQ : List ℚ → Option ℚ
  | [] => none
  | x :: t => some (t.foldl max x)

/-- Aggregate `F.avg` over the aggregated values: NULL iff no non-null value. -/
def avgQ (xs : List ℚ) : Option ℚ :=
  if xs = [] then none else some (xs.sum / (xs.length : ℚ))

/-- Running sum of squares maintained by the aggregation. -/
def sumSq (xs : List ℚ) : ℚ :=
  (xs.map (fun x => x ^ 2)).sum

/-- The square of `F.stddev` (Spark's `stddev_samp`) over the aggregated
values, from the running count, sum and sum of squares: NULL when fewer than
two non-null values; the value the script reports is `Real.sqrt` of this. -/
def var_samp (xs : List ℚ) : Option ℚ :=
  if xs.length < 2 then none
  else some ((sumSq xs - xs.sum ^ 2 / (xs.length : ℚ)) / ((xs.length : ℚ) - 1))

/-- The `min/max/avg/stddev` aggregation row of `mode_filter` (`stddevSq` is
the square of the reported stddev, see `var_samp`). -/
structure Stats where
  min : Option ℚ
  max : Option ℚ
  avg : Option ℚ
  stddevSq : Option ℚ
deriving DecidableEq, Repr

/-- The aggregation `df_filtered.agg(min, max, avg, stddev)` applied to the attribute's
non-null numeric values. -/
def aggStats (xs : List ℚ) : Stats :=
  ⟨minQ xs, maxQ xs, avgQ xs, var_samp xs⟩

/-- Observable outcome of `mode_filter`: the printed row count, the printed
statistics (absent when the function returns early on zero matches), and the
rows written to `args.output` (absent when no write happens). -/
structure FilterReport where
  count : ℕ
  stats : Option Stats
  written : Option (List Row)
deriving DecidableEq, Repr

/-- The function `mode_filter(df, args)`: apply filters, count; on zero matches print a
message and return (no statistics, no write); otherwise aggregate and, when
`args.output` is truthy, write the filtered rows. -/
def mode_filter (df : DataFrame) (args : Args) : FilterReport :=
  let df_filtered := apply_filters df args
  let count := df_filtered.rows.length
  if count = 0 then ⟨0, none, none⟩
  else
    ⟨count, some (aggStats (numVals df_filtered.rows args.attr)),
      if truthy args.output then some df_filtered.rows else none⟩

/-- One output row of the `mode_group` aggregation:
`count(*)` (all rows of the group, NULL attributes included) and the
min/max/avg/stddev of the group's non-null attribute values. -/
structure GStats where
  count : ℕ
  min : Option ℚ
  max : Option ℚ
  avg : Option ℚ
  stddevSq : Option ℚ
deriving DecidableEq, Repr

/-- The aggregation `mode_group` performs on one group's rows:
`F.count("*")` counts every row; min/max/avg/stddev use the non-null numeric
attribute values only. -/
def groupStats (rows : List Row) (attr : String) : GStats :=
  let xs := numVals rows attr
  ⟨rows.length, minQ xs, maxQ xs, avgQ xs, var_samp xs⟩

/-- Lexicographic order on strings as character-code lists (the order Spark
uses on string columns). -/
def strLe : List Char → List Char → Bool
  | [], _ => true
  | _ :: _, [] => false
  | c :: cs, d :: ds =>
    if c.toNat < d.toNat then true
    else if d.toNat < c.toNat then false
    else strLe cs ds

/-- Ascending order used by `orderBy(group_by)` on group keys: NULL first
(Spark's default `asc_nulls_first`), then the value's natural order.  Group
keys of one column share a constructor, so the cross-constructor rank case
never distinguishes real keys. -/
def keyLe (a b : Option Val) : Bool :=
  match a, b with
  | some (.num p), some (.num q) => decide (p ≤ q)
  | some (.str s), some (.str t) => strLe s.toList t.toList
  | some (.ts u), some (.ts v) => decide (u ≤ v)
  | none, _ => true
  | some (.num _), _ => true
  | _, none => false
  | _, some (.num _) => false
  | some (.str _), _ => true
  | _, some (.str _) => false

/-- Errors the script can terminate with: `raise ValueError(...)` in the
script itself, or an `AnalysisException` raised by Spark when a referenced
column cannot be resolved (modelled from Spark's behaviour for
`groupBy(group_by)` on a column absent from the schema). -/
inductive Err where
  | valueError (msg : String)
  | analysisException (msg : String)
deriving DecidableEq, Repr

/-- Observable outcome of `mode_group`: the ordered grouped statistics it
shows, and the grouped rows written to `args.output` (absent when no write
happens). -/
structure GroupReport where
  groups : List (Option Val × GStats)
  written : Option (List (Option Val × GStats))
deriving DecidableEq, Repr

/-- The function `mode_group(df, args)`: require a truthy `group_by` (else
`ValueError`), apply filters, then
`groupBy(group_by).agg(count, min, max, avg, stddev).orderBy(group_by)`;
grouping on a column absent from the schema fails Spark's analysis.  When
`args.output` is truthy the grouped result is written. -/
def mode_group (df : DataFrame) (args : Args) : Except Err GroupReport :=
  match args.group_by with
  | none => .error (.valueError "group_by is required in group mode")
  | some g =>
    if g = "" then .error (.valueError "group_by is required in group mode")
    else
      let df_filtered := apply_filters df args
      if g ∈ df.cols then
        let keys := List.insertionSort (fun a b => keyLe a b = true)
          ((df_filtered.rows.map (fun r => getCell r g)).dedup)
        let grouped := keys.map (fun k =>
          (k, groupStats (df_filtered.rows.filter (fun r => decide (getCell r g = k))) args.attr))
        .ok ⟨grouped, if truthy args.output then some grouped else none⟩
      else .error (.analysisException "cannot resolve group_by column")

/-- The full report of one script run. -/
inductive Report where
  | filterR (r : FilterReport)
  | groupR (r : GroupReport)
deriving DecidableEq, Repr

/-- The function `main` after the DataFrame is read: the only schema validation is
membership of `args.attribute` in `df.columns` (a `ValueError` otherwise),
then dispatch on the mode.  The argparse `choices` make a third mode value
impossible, so the script's final `Unknown mode` branch is unreachable. -/
def main (df : DataFrame) (args : Args) : Except Err Report :=
  if args.attr ∈ df.cols then
    match args.mode with
    | .filter => .ok (.filterR (mode_filter df args))
    | .group => (mode_group df args).map .groupR
  else .error (.valueError "attribute not found in columns")

/-! ### Spec-side definition for the refinement claim C6 -/

/-- The spec's aggregator stddev, squared, written from the spec's words:
"sample standard deviation (divisor `count − 1`; stddev is `null`/undefined
when `count < 2`)" — i.e. the mean-centered sum of squares over `count − 1`,
`none` below two values.  To be compared with `var_samp`, the running
sum/sum-of-squares form the code's `F.stddev` computes. -/
def stddevSq_spec (xs : List ℚ) : Option ℚ :=
  if xs.length < 2 then none
  else some ((xs.map (fun x => (x - xs.sum / (xs.length : ℚ)) ^ 2)).sum / ((xs.length : ℚ) - 1))

/-! ### Concrete example inputs (from the spec's scenarios) -/

/-- Scenario 3's table: `[{amt:10,zone:"A"},{amt:20,zone:"A"},{amt:5,zone:"B"}]`. -/
def exDf3 : DataFrame :=
  ⟨["amt", "zone"],
    [[("amt", some (.num 10)), ("zone", some (.str "A"))],
     [("amt", some (.num 20)), ("zone", some (.str "A"))],
     [("amt", some (.num 5)), ("zone", some (.str "B"))]]⟩

/-- Arguments `--mode group --attribute amt --group_by zone`, no filters, no output. -/
def exGroupArgs : Args :=
  ⟨.group, "amt", none, none, none, none, some "zone", none⟩

/-- A one-row table whose `amt` cell is NULL. -/
def exDfNull : DataFrame :=
  ⟨["amt", "zone"], [[("amt", none), ("zone", some (.str "A"))]]⟩

/-- A table whose only column `name` is a string (non-numeric) column. -/
def exDfStr : DataFrame :=
  ⟨["name"], [[("name", some (.str "x"))]]⟩

/-- Arguments `--mode filter --attribute name`: summarizes a non-numeric column. -/
def exStrArgs : Args :=
  ⟨.filter, "name", none, none, none, none, none, none⟩

/-- A one-row table carrying the pickup-timestamp column. -/
def exDfTs : DataFrame :=
  ⟨["amt", "tpep_pickup_datetime"],
    [[("amt", some (.num 1)), ("tpep_pickup_datetime", some (.ts 20160101000000))]]⟩

/-- Arguments `--mode filter --attribute amt --start not-a-date` (Scenario 6). -/
def exBadStartArgs : Args :=
  ⟨.filter, "amt", none, none, some "not-a-date", none, none, none⟩

/-! ### Helper lemmas -/

theorem minQ_eq_none_iff (xs : List ℚ) : minQ xs = none ↔ xs = [] := by
  cases xs <;> simp [minQ]

theorem maxQ_eq_none_iff (xs : List ℚ) : maxQ xs = none ↔ xs = [] := by
  cases xs <;> simp [maxQ]

theorem avgQ_eq_none_iff (xs : List ℚ) : avgQ xs = none ↔ xs = [] := by
  unfold avgQ
  split <;> simp_all

theorem var_samp_eq_none_iff (xs : List ℚ) : var_samp xs = none ↔ xs.length < 2 := by
  unfold var_samp
  split <;> simp_all

theorem foldl_min_le_self (t : List ℚ) (x : ℚ) : t.foldl min x ≤ x := by
  induction t generalizing x with
  | nil => simp
  | cons a t ih => exact le_trans (ih (min x a)) (min_le_left _ _)

theorem foldl_min_le_mem (t : List ℚ) : ∀ (x y : ℚ), y ∈ t → t.foldl min x ≤ y := by
  induction t with
  | nil => intro x y hy; cases hy
  | cons a t ih =>
    intro x y hy
    rcases List.mem_cons.mp hy with h | h
    · rw [h]
      exact le_trans (foldl_min_le_self t (min x a)) (min_le_right _ _)
    · exact ih (min x a) y h

theorem minQ_le_mem (xs : List ℚ) (mn y : ℚ) (hmn : minQ xs = some mn) (hy : y ∈ xs) :
    mn ≤ y := by
  cases xs with
  | nil => cases hy
  | cons x t =>
    simp only [minQ, Option.some.injEq] at hmn
    subst hmn
    rcases List.mem_cons.mp hy with h | h
    · rw [h]
      exact foldl_min_le_self t x
    · exact foldl_min_le_mem t x y h


theorem self_le_foldl_max (t : List ℚ) (x : ℚ) : x ≤ t.foldl max x := by
  induction t generalizing x with
  | nil => simp
  | cons a t ih => exact le_trans (le_max_left _ _) (ih (max x a))

theorem mem_le_foldl_max (t : List ℚ) : ∀ (x y : ℚ), y ∈ t → y ≤ t.foldl max x := by
  induction t with
  | nil => intro x y hy; cases hy
  | cons a t ih =>
    intro x y hy
    rcases List.mem_cons.mp hy with h | h
    · rw [h]
      exact le_trans (le_max_right _ _) (self_le_foldl_max t (max x a))
    · exact ih (max x a) y h

theorem mem_le_maxQ (xs : List ℚ) (mx y : ℚ) (hmx : maxQ xs = some mx) (hy : y ∈ xs) :
    y ≤ mx := by
  cases xs with
  | nil => cases hy
  | cons x t =>
    simp only [maxQ, Option.some.injEq] at hmx
    subst hmx
    rcases List.mem_cons.mp hy with h | h
    · rw [h]
      exact self_le_foldl_max t x
    · exact mem_le_foldl_max t x y h

theorem length_mul_le_sum (xs : List ℚ) (c : ℚ) (h : ∀ y ∈ xs, c ≤ y) :
    (xs.length : ℚ) * c ≤ xs.sum := by
  induction xs with
  | nil => simp
  | cons a t ih =>
    have ha := h a (List.mem_cons_self a t)
    have ht := ih (fun y hy => h y (List.mem_cons_of_mem a hy))
    simp only [List.length_cons, List.sum_cons]
    push_cast
    nlinarith

theorem sum_le_length_mul (xs : List ℚ) (c : ℚ) (h : ∀ y ∈ xs, y ≤ c) :
    xs.sum ≤ (xs.length : ℚ) * c := by
  induction xs with
  | nil => simp
  | cons a t ih =>
    have ha := h a (List.mem_cons_self a t)
    have ht := ih (fun y hy => h y (List.mem_cons_of_mem a hy))
    simp only [List.length_cons, List.sum_cons]
    push_cast
    nlinarith

theorem sum_sq_sub (xs : List ℚ) (c : ℚ) :
    (xs.map (fun x => (x - c) ^ 2)).sum =
      sumSq xs - 2 * c * xs.sum + (xs.length : ℚ) * c ^ 2 := by
  induction xs with
  | nil => simp [sumSq]
  | cons a t ih =>
    simp only [List.map_cons, List.sum_cons, sumSq, List.length_cons] at *
    push_cast
    nlinarith [ih]

theorem var_samp_eq_centered (xs : List ℚ) (h : 2 ≤ xs.length) :
    var_samp xs =
      some ((xs.map (fun x => (x - xs.sum / (xs.length : ℚ)) ^ 2)).sum /
        ((xs.length : ℚ) - 1)) := by
  have hn0 : (0 : ℚ) < (xs.length : ℚ) := by
    have : 0 < xs.length := by omega
    exact_mod_cast this
  have hn : (xs.length : ℚ) ≠ 0 := ne_of_gt hn0
  unfold var_samp
  rw [if_neg (by omega), sum_sq_sub xs (xs.sum / (xs.length : ℚ))]
  congr 1
  congr 1
  field_simp
  ring

theorem var_samp_eq_spec (xs : List ℚ) : var_samp xs = stddevSq_spec xs := by
  unfold stddevSq_spec
  by_cases h : xs.length < 2
  · simp [var_samp, h]
  · rw [if_neg h]
    exact var_samp_eq_centered xs (by omega)

/-! ### Claims -/

/-- C6: the reported standard deviation is the sample standard deviation with
divisor `count − 1` (not the population one), and it is null whenever the
partition has fewer than two non-null attribute values.  Stated over the
squared stddev: the `stddevSq` the code computes from running sum and sum of
squares (in filter mode via `aggStats`, in group mode via `groupStats`)
equals `stddevSq_spec`, the spec's mean-centered sample variance with divisor
`count − 1`, null below two values; the reported stddev is the square root of
both sides. -/
theorem c6_stddev_is_sample (xs : List ℚ) (rows : List Row) (attr : String) :
    (aggStats xs).stddevSq = stddevSq_spec xs ∧
    (groupStats rows attr).stddevSq = stddevSq_spec (numVals rows attr) :=
  ⟨var_samp_eq_spec xs, var_samp_eq_spec (numVals rows attr)⟩

/-- C2 counterexample: Scenario 3's own table refutes "null only when
count = 0".  In group mode on `exDf3`, the `"B"` group has `count = 1 > 0`
yet its stddev is null (`isNone = true`), because `F.stddev` needs two
values; so `count > 0` does not make all four statistic fields non-null. -/
theorem c2_counterexample :
    ((mode_group exDf3 exGroupArgs).map
      (fun rep => rep.groups.map (fun g => (g.1, g.2.count, g.2.stddevSq.isNone)))) =
    Except.ok [(some (Val.str "A"), 2, false), (some (Val.str "B"), 1, true)] := by
  rfl

/-- C2 amended: min/max/avg are null exactly when the partition has no
non-null numeric attribute value, and the stddev is null exactly when it has
fewer than two; in group mode `count` is `F.count("*")`, the number of all
rows of the group, so `count > 0` does not imply the other fields are
non-null. -/
theorem c2_null_fields_characterization (xs : List ℚ) (rows : List Row) (attr : String) :
    ((aggStats xs).min = none ↔ xs = []) ∧
    ((aggStats xs).max = none ↔ xs = []) ∧
    ((aggStats xs).avg = none ↔ xs = []) ∧
    ((aggStats xs).stddevSq = none ↔ xs.length < 2) ∧
    ((groupStats rows attr).count = rows.length) ∧
    ((groupStats rows attr).min = none ↔ numVals rows attr = []) ∧
    ((groupStats rows attr).max = none ↔ numVals rows attr = []) ∧
    ((groupStats rows attr).avg = none ↔ numVals rows attr = []) ∧
    ((groupStats rows attr).stddevSq = none ↔ (numVals rows attr).length < 2) :=
  ⟨minQ_eq_none_iff xs, maxQ_eq_none_iff xs, avgQ_eq_none_iff xs, var_samp_eq_none_iff xs,
    rfl, minQ_eq_none_iff _, maxQ_eq_none_iff _, avgQ_eq_none_iff _, var_samp_eq_none_iff _⟩

/-- C8: over a non-empty list of aggregated numeric attribute values,
`min ≤ mean ≤ max`, and the (squared) stddev is nonnegative whenever it is
defined — `Option.getD 0` makes this a single statement: `0` for the null
case, the sample variance otherwise; the reported stddev, the square root of
that variance, is therefore a well-defined nonnegative real. -/
theorem c8_min_le_avg_le_max (xs : List ℚ) (mn mx m : ℚ)
    (hmn : (aggStats xs).min = some mn) (hmx : (aggStats xs).max = some mx)
    (hm : (aggStats xs).avg = some m) :
    mn ≤ m ∧ m ≤ mx ∧ 0 ≤ ((aggStats xs).stddevSq).getD 0 := by
  have hne : xs ≠ [] := by
    intro h
    rw [h] at hmn
    simp [aggStats, minQ] at hmn
  have hn0 : (0 : ℚ) < (xs.length : ℚ) := by
    have h1 : 0 < xs.length := List.length_pos.mpr hne
    exact_mod_cast h1
  simp only [aggStats] at hmn hmx hm
  unfold avgQ at hm
  rw [if_neg hne] at hm
  have hmval : xs.sum / (xs.length : ℚ) = m := by
    exact Option.some.inj hm
  refine ⟨?_, ?_, ?_⟩
  · have h1 : ∀ y ∈ xs, mn ≤ y := fun y hy => minQ_le_mem xs mn y hmn hy
    have h2 := length_mul_le_sum xs mn h1
    rw [← hmval]
    rw [le_div_iff₀ hn0]
    linarith
  · have h1 : ∀ y ∈ xs, y ≤ mx := fun y hy => mem_le_maxQ xs mx y hmx hy
    have h2 := sum_le_length_mul xs mx h1
    rw [← hmval]
    rw [div_le_iff₀ hn0]
    linarith
  · show 0 ≤ (var_samp xs).getD 0
    by_cases h2 : xs.length < 2
    · simp [var_samp, h2]
    · rw [var_samp_eq_centered xs (by omega)]
      simp only [Option.getD_some]
      apply div_nonneg
      · apply List.sum_nonneg
        intro x hx
        rcases List.mem_map.mp hx with ⟨y, _, rfl⟩
        positivity
      · have h3 : (2 : ℚ) ≤ (xs.length : ℚ) := by
          exact_mod_cast not_lt.mp h2
        linarith

/-- C8 witness: instantiated at `[10, 20, 5]` (Scenario 1's values). -/
theorem c8_min_le_avg_le_max_witness :
    (5 : ℚ) ≤ 35 / 3 ∧ (35 : ℚ) / 3 ≤ 20 ∧
      (0 : ℚ) ≤ ((aggStats [10, 20, 5]).stddevSq).getD 0 := by
  have h := c8_min_le_avg_le_max [10, 20, 5] 5 20 (35 / 3)
    (by norm_num [aggStats, minQ]) (by norm_num [aggStats, maxQ])
    (by simp [aggStats, avgQ]
        norm_num)
  exact h

/-- C1 counterexample: the attribute `"name"` exists in the schema but is a
string (non-numeric) column, and the run does not fail — `main`'s only check
is `args.attribute not in df.columns`, so no schema validation error is
raised for a non-numeric attribute, refuting the claim that such a query
fails fast. -/
theorem c1_counterexample :
    getCell [("name", some (Val.str "x"))] "name" = some (Val.str "x") ∧
    (main exDfStr exStrArgs).isOk = true :=
  ⟨rfl, rfl⟩

/-- C1 amended: before any data is scanned the script validates only that the
attribute is a member of `df.columns` (`ValueError` otherwise); in group mode
a missing (falsy) `group_by` raises `ValueError`, and a `group_by` absent
from the schema fails Spark's analysis (an `AnalysisException`, before any
aggregation output); the numeric type of the attribute is never validated. -/
theorem c1_validation_membership_only (df : DataFrame) (args : Args) :
    (args.attr ∉ df.cols →
      main df args = .error (.valueError "attribute not found in columns")) ∧
    (args.attr ∈ df.cols → args.mode = .group → args.group_by = none →
      main df args = .error (.valueError "group_by is required in group mode")) ∧
    (∀ g : String, args.attr ∈ df.cols → args.mode = .group → args.group_by = some g →
      g ≠ "" → g ∉ df.cols →
      main df args = .error (.analysisException "cannot resolve group_by column")) := by
  refine ⟨?_, ?_, ?_⟩
  · intro h
    simp [main, h]
  · intro h1 h2 h3
    simp [main, h1, h2, mode_group, h3, Except.map]
  · intro g h1 h2 h3 h4 h5
    simp [main, h1, h2, mode_group, h3, h4, h5, Except.map]

/-- C1 witness: the three validation failures at concrete inputs. -/
theorem c1_validation_membership_only_witness :
    main ⟨["amt"], []⟩ ⟨.filter, "foo", none, none, none, none, none, none⟩ =
      .error (.valueError "attribute not found in columns") ∧
    main ⟨["amt"], []⟩ ⟨.group, "amt", none, none, none, none, none, none⟩ =
      .error (.valueError "group_by is required in group mode") ∧
    main ⟨["amt"], []⟩ ⟨.group, "amt", none, none, none, none, some "zone", none⟩ =
      .error (.analysisException "cannot resolve group_by column") :=
  ⟨(c1_validation_membership_only _ _).1 (by simp),
    (c1_validation_membership_only _ _).2.1 (by simp) rfl rfl,
    (c1_validation_membership_only _ _).2.2 "zone" (by simp) rfl rfl (by simp) (by simp)⟩

/-- C4 counterexample: with `start = "not-a-date"` (Scenario 6's input) the
run does not fail at all — there is no `InvalidFilterValue` anywhere in the
code (`Err` has only the script's `ValueError` and Spark's
`AnalysisException`); instead the string fails the timestamp cast, the
comparison is NULL for every row, and the query succeeds with zero matched
rows. -/
theorem c4_counterexample :
    main exDfTs exBadStartArgs = Except.ok (.filterR ⟨0, none, none⟩) :=
  rfl

/-- C4 amended: an unparseable `start` does not raise an error; the time
predicate compares against a NULL cast and holds for no row, so the filter
stage returns the empty row set (and the query then reports zero matches). -/
theorem c4_unparseable_start_drops_all_rows (df : DataFrame) (args : Args) (s : String)
    (hcol : "tpep_pickup_datetime" ∈ df.cols) (hs : args.start = some s) (hne : s ≠ "")
    (hp : parseTs s = none) : (apply_filters df args).rows = [] := by
  have hpred : ∀ r : Row, tsGeLit (getCell r "tpep_pickup_datetime") s = false := by
    intro r
    unfold tsGeLit
    rw [hp]
  cases hend : args.end_ <;> cases hmin : args.min_value <;> cases hmax : args.max_value <;>
    simp [apply_filters, hcol, hs, hne, hpred, hend, hmin, hmax, apply_ite DataFrame.rows]

/-- C4 witness: the amended behaviour at Scenario 6's concrete input. -/
theorem c4_unparseable_start_drops_all_rows_witness :
    (apply_filters exDfTs exBadStartArgs).rows = [] :=
  c4_unparseable_start_drops_all_rows exDfTs exBadStartArgs "not-a-date"
    (by simp [exDfTs]) rfl (by simp) rfl

/-- C5: when the filters match zero rows the query is not an error: `main`
succeeds and the report carries `count = 0` with no statistics row (all
statistic fields null) — the script prints "No rows match" and returns. -/
theorem c5_zero_matches_is_valid_empty_result (df : DataFrame) (args : Args)
    (hattr : args.attr ∈ df.cols) (hmode : args.mode = .filter)
    (hempty : (apply_filters df args).rows = []) :
    main df args = .ok (.filterR ⟨0, none, none⟩) := by
  simp [main, hattr, hmode, mode_filter, hempty]

/-- C5 witness: Scenario 4 shape — `min_value` above every row's value. -/
theorem c5_zero_matches_is_valid_empty_result_witness :
    main ⟨["amt"], [[("amt", some (Val.num 1))]]⟩
      ⟨.filter, "amt", some 100, none, none, none, none, none⟩ =
      .ok (.filterR ⟨0, none, none⟩) :=
  c5_zero_matches_is_valid_empty_result _ _ (by simp) rfl rfl

/-- C7: a spec with no `min_value`, `max_value`, `start` or `end` filters
nothing: `apply_filters` returns the DataFrame unchanged — the very same
rows in the original order. -/
theorem c7_no_filters_is_identity (df : DataFrame) (args : Args)
    (h1 : args.min_value = none) (h2 : args.max_value = none)
    (h3 : args.start = none) (h4 : args.end_ = none) :
    apply_filters df args = df := by
  simp [apply_filters, h1, h2, h3, h4]

/-- C7 witness: the filterless spec of `exGroupArgs` on Scenario 3's table. -/
theorem c7_no_filters_is_identity_witness :
    apply_filters exDf3 exGroupArgs = exDf3 :=
  c7_no_filters_is_identity exDf3 exGroupArgs rfl rfl rfl rfl

/-- C10: in filter mode, when zero rows survive the filters the function
returns before aggregating and before the output write: even with an output
path supplied, the report carries no statistics and nothing is written. -/
theorem c10_zero_matches_no_write (df : DataFrame) (args : Args)
    (hempty : (apply_filters df args).rows = []) (_hout : args.output ≠ none) :
    mode_filter df args = ⟨0, none, none⟩ := by
  simp [mode_filter, hempty]

/-- C10 witness: zero matches with an output path supplied. -/
theorem c10_zero_matches_no_write_witness :
    mode_filter ⟨["amt"], [[("amt", some (Val.num 1))]]⟩
      ⟨.filter, "amt", some 100, none, none, none, none, some "hdfs://out"⟩ =
      ⟨0, none, none⟩ :=
  c10_zero_matches_no_write _ _ rfl (by simp)

theorem numGe_numeric (c : Option Val) (b : ℚ) (h : numGe c b = true) :
    ∃ q : ℚ, c = some (.num q) := by
  rcases c with _ | v
  · simp [numGe] at h
  · rcases v with q | s | t
    · exact ⟨q, rfl⟩
    · simp [numGe] at h
    · simp [numGe] at h

theorem numLe_numeric (c : Option Val) (b : ℚ) (h : numLe c b = true) :
    ∃ q : ℚ, c = some (.num q) := by
  rcases c with _ | v
  · simp [numLe] at h
  · rcases v with q | s | t
    · exact ⟨q, rfl⟩
    · simp [numLe] at h
    · simp [numLe] at h

/-- C9: whenever a `min_value` or `max_value` bound is present, every row
that survives `apply_filters` has a non-null (numeric) value in the
attribute column — the bound comparison itself is NULL on a NULL cell and
the row is dropped, so the bound filters remove null-attribute rows. -/
theorem c9_bounds_imply_nonnull_attribute (df : DataFrame) (args : Args) (r : Row)
    (hb : args.min_value ≠ none ∨ args.max_value ≠ none)
    (hr : r ∈ (apply_filters df args).rows) :
    numCell r args.attr ≠ none := by
  simp only [apply_filters] at hr
  rcases hmax : args.max_value with _ | b
  · rcases hmin : args.min_value with _ | b
    · rw [hmin, hmax] at hr
      rcases hb with h | h
      · exact absurd hmin h
      · exact absurd hmax h
    · rw [hmin, hmax] at hr
      have hp := (List.mem_filter.mp hr).2
      obtain ⟨q, hq⟩ := numGe_numeric _ _ hp
      unfold numCell
      rw [hq]
      simp
  · rw [hmax] at hr
    have hp := (List.mem_filter.mp hr).2
    obtain ⟨q, hq⟩ := numLe_numeric _ _ hp
    unfold numCell
    rw [hq]
    simp

/-- C9 witness: with `min_value = 0` on a table holding a NULL-`amt` row and
a numeric one, the surviving row has a non-null numeric attribute cell. -/
theorem c9_bounds_imply_nonnull_attribute_witness :
    numCell [("amt", some (Val.num 7))] "amt" ≠ none :=
  c9_bounds_imply_nonnull_attribute
    ⟨["amt"], [[("amt", none)], [("amt", some (Val.num 7))]]⟩
    ⟨.filter, "amt", some 0, none, none, none, none, none⟩
    [("amt", some (Val.num 7))]
    (Or.inl (by simp)) (by decide)

/-- The groups `mode_group` emits partition the filtered rows: summing the
per-key filtered-row counts over the sorted deduplicated keys gives back the
total number of filtered rows. -/
theorem sum_counts_eq_length (l : List Row) (g : String) :
    ((List.insertionSort (fun a b => keyLe a b = true)
        ((l.map (fun r => getCell r g)).dedup)).map
      (fun k => (l.filter (fun r => decide (getCell r g = k))).length)).sum = l.length := by
  rw [List.Perm.sum_eq ((List.perm_insertionSort _ _).map _)]
  have hpt : ∀ k, (l.filter (fun r => decide (getCell r g = k))).length =
      @List.count (Option Val) instBEqOfDecidableEq k (l.map (fun r => getCell r g)) := by
    intro k
    rw [← List.countP_eq_length_filter]
    have h2 : @List.count (Option Val) instBEqOfDecidableEq k (l.map (fun r => getCell r g)) =
        List.countP (fun x => @BEq.beq _ instBEqOfDecidableEq x k)
          (l.map (fun r => getCell r g)) := rfl
    rw [h2, List.countP_map]
    rfl
  rw [List.map_congr_left (fun k _ => hpt k)]
  have hlem := List.sum_map_count_dedup_eq_length (l.map (fun r => getCell r g))
  rw [List.length_map] at hlem
  exact hlem

/-- C3 counterexample: a filtered row whose attribute is NULL still counts.
`exDfNull`'s only row has `amt = NULL`, yet its group `"A"` reports
`count = 1` (Spark's `F.count("*")` counts rows, not non-null attribute
values), refuting "contributes to none of that partition's statistics". -/
theorem c3_counterexample :
    mode_group exDfNull exGroupArgs =
      Except.ok ⟨[(some (Val.str "A"), ⟨1, none, none, none, none⟩)], none⟩ :=
  rfl

/-- C3 amended: a filtered row with a NULL attribute value is excluded from
min/max/mean/stddev but *is* included in the partition's `count`
(`F.count("*")` increments by one for it); and the per-group counts sum to
the number of filtered rows — all rows, under this all-rows counting policy
rather than the claim's exclusion policy. -/
theorem c3_null_attr_excluded_from_stats_not_count (df : DataFrame) (args : Args)
    (rep : GroupReport) (rows : List Row) (r : Row)
    (hnum : numCell r args.attr = none)
    (hok : mode_group df args = .ok rep) :
    groupStats (rows ++ [r]) args.attr =
      ⟨(groupStats rows args.attr).count + 1, (groupStats rows args.attr).min,
        (groupStats rows args.attr).max, (groupStats rows args.attr).avg,
        (groupStats rows args.attr).stddevSq⟩ ∧
    (rep.groups.map (fun p => p.2.count)).sum = (apply_filters df args).rows.length := by
  constructor
  · have hv : numVals (rows ++ [r]) args.attr = numVals rows args.attr := by
      unfold numVals
      rw [List.filterMap_append]
      simp [hnum]
    unfold groupStats
    rw [hv]
    simp
  · rcases hg : args.group_by with _ | g
    · simp [mode_group, hg] at hok
    · by_cases hge : g = ""
      · simp [mode_group, hg, hge] at hok
      · by_cases hmem : g ∈ df.cols
        · simp only [mode_group, hg, hge, hmem, if_true, if_false, ite_false, ite_true,
            if_neg hge, if_pos hmem, Except.ok.injEq] at hok
          subst hok
          simp only [List.map_map, Function.comp, groupStats]
          exact sum_counts_eq_length (apply_filters df args).rows g
        · simp [mode_group, hg, hge, hmem] at hok

/-- C3 witness: the amended statement at `exDfNull`'s concrete run. -/
theorem c3_null_attr_excluded_from_stats_not_count_witness :
    groupStats ([] ++ [[("amt", (none : Option Val))]]) "amt" =
      ⟨(groupStats [] "amt").count + 1, (groupStats [] "amt").min, (groupStats [] "amt").max,
        (groupStats [] "amt").avg, (groupStats [] "amt").stddevSq⟩ ∧
    (((⟨[(some (Val.str "A"), ⟨1, none, none, none, none⟩)], none⟩ :
        GroupReport).groups.map (fun p => p.2.count)).sum =
      (apply_filters exDfNull exGroupArgs).rows.length) :=
  c3_null_attr_excluded_from_stats_not_count exDfNull exGroupArgs _ [] _ rfl rfl

end SparkApp
